import Mathlib

/-!
Verification of the `jdate` Hebrew-calendar library.

The definitions below are a shallow embedding of `src/lib.rs`.  Machine
integers (`i32`, `i64`, `u8`) are modelled as `Int`/`Nat`; Rust's truncating
`/` and `%` are `Int.tdiv`/`Int.tmod`, and `div_euclid`/`rem_euclid` are
`Int.ediv`/`Int.emod`.  Panics (`unreachable!()`, `unwrap()`) are modelled as
`Option`/`Except` failure values.  The two `while` loops of the year search in
`JDate::from_jd` are given explicit (provably sufficient) iteration bounds;
the month-table walks, which the source runs over months 7,8,…,13,1,…,6 and
aborts on wrap-around to 7, are run over that explicit month list, with list
exhaustion standing for the `unreachable!()` branch.
-/

/-- `is_leap_year` from src/lib.rs: `match year % 19 { 0|3|6|8|11|14|17 => true, _ => false }`.
Rust `%` on `i32` truncates toward zero, hence `Int.tmod`. -/
def is_leap_year (year : Int) : Bool :=
  let r := year.tmod 19
  r == 0 || r == 3 || r == 6 || r == 8 || r == 11 || r == 14 || r == 17

/-- The `for year in 0..year_in_cycle` loop inside `molad`: chalakim
accumulated over the first `n` years of the current 19-year cycle. -/
def molad_cycle_sum : Nat → Int
  | 0 => 0
  | n + 1 =>
      molad_cycle_sum n +
        (if is_leap_year ((n : Int) + 1) then 13 * ((29 * 24 + 12) * 1080 + 793)
         else 12 * ((29 * 24 + 12) * 1080 + 793))

/-- `molad` from src/lib.rs: chalakim since the epoch of the given year's molad. -/
def molad (year : Int) : Int :=
  let parts_month : Int := (29 * 24 + 12) * 1080 + 793
  let parts_year : Int := 12 * parts_month
  let parts_lyear : Int := 13 * parts_month
  let parts_cycle : Int := 12 * parts_year + 7 * parts_lyear
  let total_cycles := (year - 1) / 19
  let year_in_cycle := (year - 1) % 19
  (24 + 5) * 1080 + 204 + total_cycles * parts_cycle + molad_cycle_sum year_in_cycle.toNat

/-- `year_start` from src/lib.rs: the day (since epoch) on which the year starts,
after the four postponement rules.  Rust `%` is `Int.tmod`. -/
def year_start (year : Int) : Int :=
  let m := molad year
  let day := m / (1080 * 24)
  let parts := m % (1080 * 24)
  let rosh := day
  -- first rule: molad at or after noon postpones by one day
  let rosh := if 18 * 1080 ≤ parts then rosh + 1 else rosh
  -- second rule: lo ADU
  let rosh := if rosh.tmod 7 = 0 ∨ rosh.tmod 7 = 3 ∨ rosh.tmod 7 = 5 then rosh + 1 else rosh
  -- third rule: Ga-Ta-RaD
  let rosh := if is_leap_year year = false ∧ day.tmod 7 = 2 ∧ 9 * 1080 + 204 ≤ parts
    then day + 2 else rosh
  -- fourth rule: Be-TU-TeKaPoT
  let rosh := if is_leap_year (year - 1) = true ∧ day.tmod 7 = 1 ∧ 15 * 1080 + 589 ≤ parts
    then day + 1 else rosh
  rosh

/-- `year_length` from src/lib.rs. -/
def year_length (year : Int) : Int :=
  year_start (year + 1) - year_start year

/-- `year_months` from src/lib.rs: the 14-slot month-length table (slot 0 unused). -/
def year_months (year : Int) : List Int :=
  let dim : List Int := [0, 30, 29, 30, 29, 30, 29, 30, 29, 30, 29, 30, 29, 0]
  let dim := if is_leap_year year then (dim.set 12 30).set 13 29 else dim
  let length := year_length year
  let dim := if length.tmod 10 = 3 then dim.set 9 29 else dim
  let dim := if length.tmod 10 = 5 then dim.set 8 30 else dim
  dim

/-- `date_is_valid` from src/lib.rs.  `month` and `day` are `u8`, modelled as `Nat`.
The source's final `_ => unreachable!()` arm is only reachable for months that the
earlier guards already excluded, so any value there leaves the function unchanged. -/
def date_is_valid (year : Int) (month day : Nat) : Bool :=
  if month < 1 ∨ 13 < month ∨ day < 1 ∨ 30 < day then false
  else if month = 13 then decide (day ≤ 29) && is_leap_year year
  else if day = 30 then
    match month with
    | 1 | 3 | 5 | 7 | 11 => true
    | 2 | 4 | 6 | 10 => false
    | 12 => is_leap_year year
    | 8 => (year_length year).tmod 10 == 5
    | 9 => decide (4 ≤ (year_length year).tmod 10)
    | _ => false
  else true

/-- `JDate` from src/lib.rs. -/
structure JDate where
  year : Int
  month : Nat
  day : Nat
deriving DecidableEq, Repr

/-- `JDate::new` from src/lib.rs. -/
def JDate.new (year : Int) (month day : Nat) : Option JDate :=
  if date_is_valid year month day = false then none
  else some ⟨year, month, day⟩

/-- `while year_start(year) < ed { year += 1 }` with an explicit iteration bound. -/
def seek_up : Nat → Int → Int → Int
  | 0, year, _ => year
  | fuel + 1, year, ed => if year_start year < ed then seek_up fuel (year + 1) ed else year

/-- `while year_start(year) > ed { year -= 1 }` with an explicit iteration bound. -/
def seek_down : Nat → Int → Int → Int
  | 0, year, _ => year
  | fuel + 1, year, ed => if ed < year_start year then seek_down fuel (year - 1) ed else year

/-- The year-search of `JDate::from_jd`: estimate `ed*100/36525` (Rust truncating
division), then the two `while` loops.  The iteration bounds are sufficient because
`year_start` increases by at least one per year (proved below). -/
def loc_year (ed : Int) : Int :=
  let est := (ed * 100).tdiv 36525
  let up := seek_up ((ed - year_start est).toNat + 1) est ed
  seek_down ((year_start up - ed).toNat + 1) up ed

/-- The order in which both month-table walks of src/lib.rs visit the table:
months 7,8,…,13 then 1,…,6; advancing past 6 would reach 7 = `unreachable!()`. -/
def month_order : List Nat := [7, 8, 9, 10, 11, 12, 13, 1, 2, 3, 4, 5, 6]

/-- The month loop of `JDate::from_jd`: find the month containing day `ed`,
returning the month and the day number its first day has.  `none` models the
`unreachable!()` branch (wrap-around to month 7). -/
def from_walk (ed : Int) (dim : List Int) : List Nat → Int → Option (Nat × Int)
  | [], _ => none
  | m :: rest, days =>
      let length := dim.getD m 0
      if ed < days + length then some (m, days)
      else from_walk ed dim rest (days + length)

/-- `JDate::from_jd` from src/lib.rs.  `none` models the `unreachable!()` branch. -/
def JDate.from_jd (jd : Int) : Option JDate :=
  let ed := jd - 347997
  let year := loc_year ed
  match from_walk ed (year_months year) month_order (year_start year) with
  | none => none
  | some (m, days) => some ⟨year, m, (ed - days + 1).toNat⟩

/-- The month loop of `JDate::to_jd`: accumulate month lengths until the target
month, then add the day-of-month.  `none` models the `unreachable!()` branch. -/
def to_walk (target day : Nat) (dim : List Int) : List Nat → Int → Option Int
  | [], _ => none
  | m :: rest, ed =>
      let length := dim.getD m 0
      if m = target then some (ed + day)
      else to_walk target day dim rest (ed + length)

/-- `JDate::to_jd` from src/lib.rs.  `none` models the `unreachable!()` branch. -/
def JDate.to_jd (d : JDate) : Option Int :=
  (to_walk d.month d.day (year_months d.year) month_order (year_start d.year - 1)).map
    (· + 347997)

/-- `JDate::month_name` from src/lib.rs.  The source indexes `NAMES[month-1]`,
which panics only for months outside 1..13; `getD` returns `""` there. -/
def month_name (d : JDate) : String :=
  let names := ["Nisan", "Iyar", "Sivan", "Tamuz", "Av", "Elul",
    "Tishrei", "Cheshvan", "Kislev", "Tevet", "Shvat", "Adar", "Adar2"]
  if d.month = 12 && is_leap_year d.year then "Adar1"
  else names.getD (d.month - 1) ""

/-- Modelled from the spec: the proleptic Gregorian leap-year rule
(`divisible by 4 and (not divisible by 100 or divisible by 400)`), §3.
The repository delegates Gregorian validation to the external `time::Date`
type, whose code is not in this repository. -/
def greg_is_leap (y : Int) : Bool :=
  y.emod 4 == 0 && (y.emod 100 != 0 || y.emod 400 == 0)

/-- Modelled from the spec: the number of days of a Gregorian month
(February 29 only in Gregorian leap years), §4.6. -/
def greg_month_days (y : Int) (m : Nat) : Nat :=
  match m with
  | 1 | 3 | 5 | 7 | 8 | 10 | 12 => 31
  | 4 | 6 | 9 | 11 => 30
  | 2 => if greg_is_leap y then 29 else 28
  | _ => 0

/-- Modelled from the spec: the cumulative days-before-month table, §4.6
(slot 0 unused). -/
def days_before_month : List Int :=
  [0, 0, 31, 59, 90, 120, 151, 181, 212, 243, 273, 304, 334]

/-- Modelled from the spec: Julian Day number of a proleptic Gregorian date,
via the closed-form leap-day count `/4 - /100 + /400` (floor divisions) and the
days-before-month table, §4.6.  The offset constant `1721425` places
0001-01-01 at JD 1721426, so that -3760-09-07 lands on JD 347998, the epoch
convention of src/lib.rs (`ed = jd - 347997`).  This stands in for the external
`time::Date::to_julian_day`, whose code is not in this repository. -/
def greg_to_jd (y : Int) (m d : Nat) : Int :=
  1721425 + 365 * (y - 1) + (y - 1).ediv 4 - (y - 1).ediv 100 + (y - 1).ediv 400
    + days_before_month.getD m 0
    + (if 2 < m ∧ greg_is_leap y = true then 1 else 0) + (d : Int)

/-- Modelled from the spec: `greg_valid`, §4.6 — month in 1..12, day in
1..(actual length of that month/year).  Stands in for the validity check of the
external `time::Date::from_calendar_date`. -/
def greg_valid (y : Int) (m d : Nat) : Bool :=
  decide (1 ≤ m) && decide (m ≤ 12) && decide (1 ≤ d) && decide (d ≤ greg_month_days y m)

/-- A Gregorian date triple (stands in for the external `time::Date`). -/
structure GDate where
  year : Int
  month : Nat
  day : Nat
deriving DecidableEq, Repr

/-- `gdate` from src/lib.rs:
`Date::from_calendar_date(year, month.try_into().unwrap(), day).ok()`.
`month.try_into().unwrap()` panics for months outside 1..12 — modelled as
`Except.error ()`; the external validating constructor is modelled from the
spec (`greg_valid`). -/
def gdate (year : Int) (month day : Nat) : Except Unit (Option GDate) :=
  if month < 1 ∨ 12 < month then .error ()
  else .ok (if greg_valid year month day then some ⟨year, month, day⟩ else none)

/-! ### Arithmetic helper lemmas about Rust's truncating remainder -/

/-- Truncating remainder is odd in the dividend. -/
theorem tmod_neg_dividend (a b : Int) : (-a).tmod b = -(a.tmod b) := by
  rw [Int.tmod_def, Int.tmod_def, Int.neg_tdiv]; ring

/-- The facts omega needs to reason about `a.tmod b` for a positive literal `b`. -/
theorem tmod_facts (a b : Int) (hb : 0 < b) :
    b * (a.tdiv b) + a.tmod b = a ∧ -b < a.tmod b ∧ a.tmod b < b ∧
      (0 ≤ a → 0 ≤ a.tmod b) ∧ (a ≤ 0 → a.tmod b ≤ 0) := by
  refine ⟨Int.tdiv_add_tmod a b, ?_, Int.tmod_lt_of_pos a hb,
    fun ha => Int.tmod_nonneg b ha, fun ha => ?_⟩
  · have h := Int.tmod_lt_of_pos (-a) hb
    rw [tmod_neg_dividend] at h
    omega
  · have h := Int.tmod_nonneg (a := -a) b (by omega)
    rw [tmod_neg_dividend] at h
    omega

/-! ### The leap-year rule -/

/-- For nonnegative years, `is_leap_year` agrees with the Euclidean
characterisation `year mod 19 ∈ {0,3,6,8,11,14,17}`. -/
theorem is_leap_year_iff (y : Int) (h : 0 ≤ y) :
    is_leap_year y = true ↔
      (y % 19 = 0 ∨ y % 19 = 3 ∨ y % 19 = 6 ∨ y % 19 = 8 ∨
        y % 19 = 11 ∨ y % 19 = 14 ∨ y % 19 = 17) := by
  obtain ⟨h1, h2, h3, h4, h5⟩ := tmod_facts y 19 (by norm_num)
  simp only [is_leap_year, Bool.or_eq_true, beq_iff_eq]
  omega

/-- Two consecutive years are never both at leap positions of the Metonic cycle. -/
theorem leap_not_adjacent (y : Int) :
    ¬((y % 19 = 0 ∨ y % 19 = 3 ∨ y % 19 = 6 ∨ y % 19 = 8 ∨
        y % 19 = 11 ∨ y % 19 = 14 ∨ y % 19 = 17) ∧
      ((y + 1) % 19 = 0 ∨ (y + 1) % 19 = 3 ∨ (y + 1) % 19 = 6 ∨ (y + 1) % 19 = 8 ∨
        (y + 1) % 19 = 11 ∨ (y + 1) % 19 = 14 ∨ (y + 1) % 19 = 17)) := by
  omega

/-! ### The molad recurrence -/

/-- One step of the molad: a leap year adds 13 synodic months, others 12. -/
theorem molad_succ (y : Int) :
    molad (y + 1) = molad y +
      (if y % 19 = 0 ∨ y % 19 = 3 ∨ y % 19 = 6 ∨ y % 19 = 8 ∨
          y % 19 = 11 ∨ y % 19 = 14 ∨ y % 19 = 17
       then 9950629 else 9185196) := by
  unfold molad
  dsimp only
  have hsub : y + 1 - 1 = y := by ring
  rw [hsub]
  have hb1 : 0 ≤ (y - 1) % 19 := by omega
  have hb2 : (y - 1) % 19 < 19 := by omega
  have m0 : molad_cycle_sum 0 = 0 := by decide
  have m1 : molad_cycle_sum 1 = 9185196 := by decide
  have m2 : molad_cycle_sum 2 = 18370392 := by decide
  have m3 : molad_cycle_sum 3 = 28321021 := by decide
  have m4 : molad_cycle_sum 4 = 37506217 := by decide
  have m5 : molad_cycle_sum 5 = 46691413 := by decide
  have m6 : molad_cycle_sum 6 = 56642042 := by decide
  have m7 : molad_cycle_sum 7 = 65827238 := by decide
  have m8 : molad_cycle_sum 8 = 75777867 := by decide
  have m9 : molad_cycle_sum 9 = 84963063 := by decide
  have m10 : molad_cycle_sum 10 = 94148259 := by decide
  have m11 : molad_cycle_sum 11 = 104098888 := by decide
  have m12 : molad_cycle_sum 12 = 113284084 := by decide
  have m13 : molad_cycle_sum 13 = 122469280 := by decide
  have m14 : molad_cycle_sum 14 = 132419909 := by decide
  have m15 : molad_cycle_sum 15 = 141605105 := by decide
  have m16 : molad_cycle_sum 16 = 150790301 := by decide
  have m17 : molad_cycle_sum 17 = 160740930 := by decide
  have m18 : molad_cycle_sum 18 = 169926126 := by decide
  rcases Decidable.em ((y - 1) % 19 = 18) with h18 | hlt
  · have e1 : y / 19 = (y - 1) / 19 + 1 := by omega
    have e2 : y % 19 = 0 := by omega
    rw [e1, e2, h18]
    rw [show Int.toNat 18 = 18 from rfl, m18]
    norm_num
    omega
  · have e1 : y / 19 = (y - 1) / 19 := by omega
    have e2 : y % 19 = (y - 1) % 19 + 1 := by omega
    rw [e1, e2]
    have hlt' : (y - 1) % 19 < 18 := by omega
    generalize hr : (y - 1) % 19 = r at hb1 hlt'
    interval_cases r <;>
      · simp only [m0, m1, m2, m3, m4, m5, m6, m7, m8, m9, m10, m11, m12, m13, m14,
          m15, m16, m17, m18, Int.reduceAdd, Int.reduceToNat]
        simp
        try omega

/-- The molad advances by at least a regular year's chalakim. -/
theorem molad_succ_ge (y : Int) : molad y + 9185196 ≤ molad (y + 1) := by
  have h := molad_succ y
  split_ifs at h <;> omega

/-- The molad advances by at most a leap year's chalakim. -/
theorem molad_succ_le (y : Int) : molad (y + 1) ≤ molad y + 9950629 := by
  have h := molad_succ y
  split_ifs at h <;> omega

/-! ### Bounds and monotonicity of `year_start` -/

/-- The postponement rules move the start at most two days past the molad's day. -/
theorem year_start_bounds (y : Int) :
    molad y / (1080 * 24) ≤ year_start y ∧ year_start y ≤ molad y / (1080 * 24) + 2 := by
  unfold year_start
  dsimp only
  split_ifs <;> omega

/-- `year_start` is strictly monotonic. -/
theorem year_start_lt_succ (y : Int) : year_start y < year_start (y + 1) := by
  have h1 := molad_succ_ge y
  have h2 := year_start_bounds y
  have h3 := year_start_bounds (y + 1)
  omega

theorem year_start_mono {a b : Int} (h : a ≤ b) : year_start a ≤ year_start b := by
  refine @Int.le_induction (fun b => year_start a ≤ year_start b) a ?_ ?_ b h
  · exact le_refl _
  · intro n hn ih
    have := year_start_lt_succ n
    omega

/-! ### The year search of `JDate::from_jd` -/

theorem seek_up_ge (fuel : Nat) (year ed : Int) (h : ed ≤ year_start year + fuel) :
    ed ≤ year_start (seek_up fuel year ed) := by
  induction fuel generalizing year with
  | zero => simpa [seek_up] using h
  | succ n ih =>
      rw [seek_up]
      split_ifs with hc
      · exact ih (year + 1) (by have := year_start_lt_succ year; push_cast at h ⊢; omega)
      · omega

theorem seek_up_lower (fuel : Nat) (year ed : Int) :
    seek_up fuel year ed = year ∨ year_start (seek_up fuel year ed - 1) < ed := by
  induction fuel generalizing year with
  | zero => left; rfl
  | succ n ih =>
      rw [seek_up]
      split_ifs with hc
      · rcases ih (year + 1) with h | h
        · right; rw [h]; simpa using hc
        · right; exact h
      · left; rfl

theorem seek_down_le (fuel : Nat) (year ed : Int) (h : year_start year ≤ ed + fuel) :
    year_start (seek_down fuel year ed) ≤ ed := by
  induction fuel generalizing year with
  | zero => simpa [seek_down] using h
  | succ n ih =>
      rw [seek_down]
      split_ifs with hc
      · refine ih (year - 1) ?_
        have := year_start_lt_succ (year - 1)
        rw [show year - 1 + 1 = year by ring] at this
        push_cast at h ⊢
        omega
      · omega

theorem seek_down_upper (fuel : Nat) (year ed : Int) :
    seek_down fuel year ed = year ∨ ed < year_start (seek_down fuel year ed + 1) := by
  induction fuel generalizing year with
  | zero => left; rfl
  | succ n ih =>
      rw [seek_down]
      split_ifs with hc
      · rcases ih (year - 1) with h | h
        · right; rw [h, show year - 1 + 1 = year by ring]; exact hc
        · right; exact h
      · left; rfl

/-- The year located by `from_jd`'s two `while` loops brackets the day number. -/
theorem loc_year_bracket (ed : Int) :
    year_start (loc_year ed) ≤ ed ∧ ed < year_start (loc_year ed + 1) := by
  unfold loc_year
  dsimp only
  set est := (ed * 100).tdiv 36525 with hest
  set up := seek_up ((ed - year_start est).toNat + 1) est ed with hup
  have h1 : ed ≤ year_start up :=
    seek_up_ge _ _ _ (by omega)
  have h3 : year_start (seek_down ((year_start up - ed).toNat + 1) up ed) ≤ ed :=
    seek_down_le _ _ _ (by omega)
  have h4 := seek_down_upper ((year_start up - ed).toNat + 1) up ed
  refine ⟨h3, ?_⟩
  rcases h4 with h | h
  · rw [h]
    have := year_start_lt_succ up
    omega
  · exact h

/-- Day numbers at or after the epoch land in years at or after year 1. -/
theorem loc_year_pos (ed : Int) (h : 1 ≤ ed) : 1 ≤ loc_year ed := by
  by_contra hc
  have h2 := (loc_year_bracket ed).2
  have h3 : year_start (loc_year ed + 1) ≤ year_start 1 := year_start_mono (by omega)
  have h4 : year_start 1 = 1 := by decide
  omega

/-- Lower bound on the molad of post-epoch years. -/
theorem molad_lb (y : Int) (h : 1 ≤ y) : 31524 + 9185196 * (y - 1) ≤ molad y := by
  refine @Int.le_induction (fun y => 31524 + 9185196 * (y - 1) ≤ molad y) 1 ?_ ?_ y h
  · decide
  · intro n hn ih
    have := molad_succ_ge n
    omega

/-! ### The central year-length theorem -/

set_option maxHeartbeats 4000000 in
/-- For every year from 1 on, the year length is 353/354/355 in common years
and 383/384/385 in leap years.  This is the classical theorem that the four
postponement rules keep the calendar consistent. -/
theorem year_length_cases (y : Int) (hy : 1 ≤ y) :
    (is_leap_year y = true →
      year_length y = 383 ∨ year_length y = 384 ∨ year_length y = 385) ∧
    (is_leap_year y = false →
      year_length y = 353 ∨ year_length y = 354 ∨ year_length y = 355) := by
  have hm1 := molad_lb y hy
  have hm2 := molad_lb (y + 1) (by omega)
  have hs := molad_succ y
  have hl0 := is_leap_year_iff (y - 1) (by omega)
  have hl1 := is_leap_year_iff y (by omega)
  have hl2 := is_leap_year_iff (y + 1) (by omega)
  have ha1 := leap_not_adjacent y
  have ha0 := leap_not_adjacent (y - 1)
  rw [show y - 1 + 1 = y by ring] at ha0
  have hdy : 1 ≤ molad y / (1080 * 24) := by omega
  have hdy1 : 1 ≤ molad (y + 1) / (1080 * 24) := by omega
  obtain ⟨t1a, t1b, t1c, t1d, -⟩ := tmod_facts (molad y / (1080 * 24)) 7 (by norm_num)
  obtain ⟨t2a, t2b, t2c, t2d, -⟩ := tmod_facts (molad y / (1080 * 24) + 1) 7 (by norm_num)
  obtain ⟨t3a, t3b, t3c, t3d, -⟩ := tmod_facts (molad (y + 1) / (1080 * 24)) 7 (by norm_num)
  obtain ⟨t4a, t4b, t4c, t4d, -⟩ :=
    tmod_facts (molad (y + 1) / (1080 * 24) + 1) 7 (by norm_num)
  have t1e := t1d (by omega)
  have t2e := t2d (by omega)
  have t3e := t3d (by omega)
  have t4e := t4d (by omega)
  clear t1d t2d t3d t4d
  unfold year_length year_start
  dsimp only
  rw [show y + 1 - 1 = y by ring]
  cases hb0 : is_leap_year (y - 1) <;> cases hb1 : is_leap_year y <;>
    cases hb2 : is_leap_year (y + 1)
  all_goals rw [hb0] at hl0
  all_goals rw [hb1] at hl1
  all_goals rw [hb2] at hl2
  all_goals simp only [Bool.false_eq_true, eq_self_iff_true, false_iff, true_iff]
    at hl0 hl1 hl2
  all_goals
    first
    | rw [if_pos hl1] at hs
    | rw [if_neg hl1] at hs
  all_goals
    simp only [hb0, hb1, hb2, Bool.false_eq_true, Bool.true_eq_false,
      eq_self_iff_true, true_and, false_and, and_true, and_false,
      if_true, if_false, false_implies, true_implies]
  all_goals split_ifs <;> omega

/-! ### The month tables of post-epoch years -/

set_option maxHeartbeats 2000000 in
/-- Joint specification of the two month-table walks over a symbolic table:
the forward walk of `from_jd` finds the month slot containing `ed`, and the
backward walk of `to_jd` over the same table recovers the day number. -/
theorem walk_master (ed s a1 a2 a3 a4 a5 a6 a7 a8 a9 a10 a11 a12 a13 : Int)
    (h0 : 0 ≤ a1 ∧ 0 ≤ a2 ∧ 0 ≤ a3 ∧ 0 ≤ a4 ∧ 0 ≤ a5 ∧ 0 ≤ a6 ∧ 0 ≤ a7 ∧
      0 ≤ a8 ∧ 0 ≤ a9 ∧ 0 ≤ a10 ∧ 0 ≤ a11 ∧ 0 ≤ a12 ∧ 0 ≤ a13)
    (h1 : s ≤ ed)
    (h2 : ed < s + (a7 + a8 + a9 + a10 + a11 + a12 + a13 + a1 + a2 + a3 + a4 + a5 + a6)) :
    ∃ (m : Nat) (days : Int),
      from_walk ed [0, a1, a2, a3, a4, a5, a6, a7, a8, a9, a10, a11, a12, a13] month_order s = some (m, days) ∧
      s ≤ days ∧ days ≤ ed ∧
      (∀ dd : Nat, to_walk m dd [0, a1, a2, a3, a4, a5, a6, a7, a8, a9, a10, a11, a12, a13] month_order (s - 1) = some (days - 1 + (dd : Int))) ∧
      ((m = 7 ∧ days = s ∧ ed < days + a7) ∨
       (m = 8 ∧ days = s + a7 ∧ ed < days + a8) ∨
       (m = 9 ∧ days = s + a7 + a8 ∧ ed < days + a9) ∨
       (m = 10 ∧ days = s + a7 + a8 + a9 ∧ ed < days + a10) ∨
       (m = 11 ∧ days = s + a7 + a8 + a9 + a10 ∧ ed < days + a11) ∨
       (m = 12 ∧ days = s + a7 + a8 + a9 + a10 + a11 ∧ ed < days + a12) ∨
       (m = 13 ∧ days = s + a7 + a8 + a9 + a10 + a11 + a12 ∧ ed < days + a13) ∨
       (m = 1 ∧ days = s + a7 + a8 + a9 + a10 + a11 + a12 + a13 ∧ ed < days + a1) ∨
       (m = 2 ∧ days = s + a7 + a8 + a9 + a10 + a11 + a12 + a13 + a1 ∧ ed < days + a2) ∨
       (m = 3 ∧ days = s + a7 + a8 + a9 + a10 + a11 + a12 + a13 + a1 + a2 ∧ ed < days + a3) ∨
       (m = 4 ∧ days = s + a7 + a8 + a9 + a10 + a11 + a12 + a13 + a1 + a2 + a3 ∧ ed < days + a4) ∨
       (m = 5 ∧ days = s + a7 + a8 + a9 + a10 + a11 + a12 + a13 + a1 + a2 + a3 + a4 ∧ ed < days + a5) ∨
       (m = 6 ∧ days = s + a7 + a8 + a9 + a10 + a11 + a12 + a13 + a1 + a2 + a3 + a4 + a5 ∧ ed < days + a6)) := by
  have fw : from_walk ed [0, a1, a2, a3, a4, a5, a6, a7, a8, a9, a10, a11, a12, a13] month_order s =
      (if ed < s + a7 then some ((7 : Nat), s) else if ed < s + a7 + a8 then some ((8 : Nat), s + a7) else if ed < s + a7 + a8 + a9 then some ((9 : Nat), s + a7 + a8) else if ed < s + a7 + a8 + a9 + a10 then some ((10 : Nat), s + a7 + a8 + a9) else if ed < s + a7 + a8 + a9 + a10 + a11 then some ((11 : Nat), s + a7 + a8 + a9 + a10) else if ed < s + a7 + a8 + a9 + a10 + a11 + a12 then some ((12 : Nat), s + a7 + a8 + a9 + a10 + a11) else if ed < s + a7 + a8 + a9 + a10 + a11 + a12 + a13 then some ((13 : Nat), s + a7 + a8 + a9 + a10 + a11 + a12) else if ed < s + a7 + a8 + a9 + a10 + a11 + a12 + a13 + a1 then some ((1 : Nat), s + a7 + a8 + a9 + a10 + a11 + a12 + a13) else if ed < s + a7 + a8 + a9 + a10 + a11 + a12 + a13 + a1 + a2 then some ((2 : Nat), s + a7 + a8 + a9 + a10 + a11 + a12 + a13 + a1) else if ed < s + a7 + a8 + a9 + a10 + a11 + a12 + a13 + a1 + a2 + a3 then some ((3 : Nat), s + a7 + a8 + a9 + a10 + a11 + a12 + a13 + a1 + a2) else if ed < s + a7 + a8 + a9 + a10 + a11 + a12 + a13 + a1 + a2 + a3 + a4 then some ((4 : Nat), s + a7 + a8 + a9 + a10 + a11 + a12 + a13 + a1 + a2 + a3) else if ed < s + a7 + a8 + a9 + a10 + a11 + a12 + a13 + a1 + a2 + a3 + a4 + a5 then some ((5 : Nat), s + a7 + a8 + a9 + a10 + a11 + a12 + a13 + a1 + a2 + a3 + a4) else if ed < s + a7 + a8 + a9 + a10 + a11 + a12 + a13 + a1 + a2 + a3 + a4 + a5 + a6 then some ((6 : Nat), s + a7 + a8 + a9 + a10 + a11 + a12 + a13 + a1 + a2 + a3 + a4 + a5) else none) := rfl
  rw [fw]
  by_cases i7 : ed < s + a7
  · rw [if_pos i7]
    refine ⟨7, s, rfl, by omega, by omega, fun dd => ?_, ?_⟩
    · have e : to_walk 7 dd [0, a1, a2, a3, a4, a5, a6, a7, a8, a9, a10, a11, a12, a13] month_order (s - 1) =
          some (s - 1 + (dd : Int)) := rfl
      rw [e]
      try simp only [Option.some.injEq]
      try omega
    · exact Or.inl ⟨rfl, rfl, i7⟩
  rw [if_neg i7]
  by_cases i8 : ed < s + a7 + a8
  · rw [if_pos i8]
    refine ⟨8, s + a7, rfl, by omega, by omega, fun dd => ?_, ?_⟩
    · have e : to_walk 8 dd [0, a1, a2, a3, a4, a5, a6, a7, a8, a9, a10, a11, a12, a13] month_order (s - 1) =
          some (s - 1 + a7 + (dd : Int)) := rfl
      rw [e]
      try simp only [Option.some.injEq]
      try omega
    · exact Or.inr (Or.inl ⟨rfl, rfl, i8⟩)
  rw [if_neg i8]
  by_cases i9 : ed < s + a7 + a8 + a9
  · rw [if_pos i9]
    refine ⟨9, s + a7 + a8, rfl, by omega, by omega, fun dd => ?_, ?_⟩
    · have e : to_walk 9 dd [0, a1, a2, a3, a4, a5, a6, a7, a8, a9, a10, a11, a12, a13] month_order (s - 1) =
          some (s - 1 + a7 + a8 + (dd : Int)) := rfl
      rw [e]
      try simp only [Option.some.injEq]
      try omega
    · exact Or.inr (Or.inr (Or.inl ⟨rfl, rfl, i9⟩))
  rw [if_neg i9]
  by_cases i10 : ed < s + a7 + a8 + a9 + a10
  · rw [if_pos i10]
    refine ⟨10, s + a7 + a8 + a9, rfl, by omega, by omega, fun dd => ?_, ?_⟩
    · have e : to_walk 10 dd [0, a1, a2, a3, a4, a5, a6, a7, a8, a9, a10, a11, a12, a13] month_order (s - 1) =
          some (s - 1 + a7 + a8 + a9 + (dd : Int)) := rfl
      rw [e]
      try simp only [Option.some.injEq]
      try omega
    · exact Or.inr (Or.inr (Or.inr (Or.inl ⟨rfl, rfl, i10⟩)))
  rw [if_neg i10]
  by_cases i11 : ed < s + a7 + a8 + a9 + a10 + a11
  · rw [if_pos i11]
    refine ⟨11, s + a7 + a8 + a9 + a10, rfl, by omega, by omega, fun dd => ?_, ?_⟩
    · have e : to_walk 11 dd [0, a1, a2, a3, a4, a5, a6, a7, a8, a9, a10, a11, a12, a13] month_order (s - 1) =
          some (s - 1 + a7 + a8 + a9 + a10 + (dd : Int)) := rfl
      rw [e]
      try simp only [Option.some.injEq]
      try omega
    · exact Or.inr (Or.inr (Or.inr (Or.inr (Or.inl ⟨rfl, rfl, i11⟩))))
  rw [if_neg i11]
  by_cases i12 : ed < s + a7 + a8 + a9 + a10 + a11 + a12
  · rw [if_pos i12]
    refine ⟨12, s + a7 + a8 + a9 + a10 + a11, rfl, by omega, by omega, fun dd => ?_, ?_⟩
    · have e : to_walk 12 dd [0, a1, a2, a3, a4, a5, a6, a7, a8, a9, a10, a11, a12, a13] month_order (s - 1) =
          some (s - 1 + a7 + a8 + a9 + a10 + a11 + (dd : Int)) := rfl
      rw [e]
      try simp only [Option.some.injEq]
      try omega
    · exact Or.inr (Or.inr (Or.inr (Or.inr (Or.inr (Or.inl ⟨rfl, rfl, i12⟩)))))
  rw [if_neg i12]
  by_cases i13 : ed < s + a7 + a8 + a9 + a10 + a11 + a12 + a13
  · rw [if_pos i13]
    refine ⟨13, s + a7 + a8 + a9 + a10 + a11 + a12, rfl, by omega, by omega, fun dd => ?_, ?_⟩
    · have e : to_walk 13 dd [0, a1, a2, a3, a4, a5, a6, a7, a8, a9, a10, a11, a12, a13] month_order (s - 1) =
          some (s - 1 + a7 + a8 + a9 + a10 + a11 + a12 + (dd : Int)) := rfl
      rw [e]
      try simp only [Option.some.injEq]
      try omega
    · exact Or.inr (Or.inr (Or.inr (Or.inr (Or.inr (Or.inr (Or.inl ⟨rfl, rfl, i13⟩))))))
  rw [if_neg i13]
  by_cases i1 : ed < s + a7 + a8 + a9 + a10 + a11 + a12 + a13 + a1
  · rw [if_pos i1]
    refine ⟨1, s + a7 + a8 + a9 + a10 + a11 + a12 + a13, rfl, by omega, by omega, fun dd => ?_, ?_⟩
    · have e : to_walk 1 dd [0, a1, a2, a3, a4, a5, a6, a7, a8, a9, a10, a11, a12, a13] month_order (s - 1) =
          some (s - 1 + a7 + a8 + a9 + a10 + a11 + a12 + a13 + (dd : Int)) := rfl
      rw [e]
      try simp only [Option.some.injEq]
      try omega
    · exact Or.inr (Or.inr (Or.inr (Or.inr (Or.inr (Or.inr (Or.inr (Or.inl ⟨rfl, rfl, i1⟩)))))))
  rw [if_neg i1]
  by_cases i2 : ed < s + a7 + a8 + a9 + a10 + a11 + a12 + a13 + a1 + a2
  · rw [if_pos i2]
    refine ⟨2, s + a7 + a8 + a9 + a10 + a11 + a12 + a13 + a1, rfl, by omega, by omega, fun dd => ?_, ?_⟩
    · have e : to_walk 2 dd [0, a1, a2, a3, a4, a5, a6, a7, a8, a9, a10, a11, a12, a13] month_order (s - 1) =
          some (s - 1 + a7 + a8 + a9 + a10 + a11 + a12 + a13 + a1 + (dd : Int)) := rfl
      rw [e]
      try simp only [Option.some.injEq]
      try omega
    · exact Or.inr (Or.inr (Or.inr (Or.inr (Or.inr (Or.inr (Or.inr (Or.inr (Or.inl ⟨rfl, rfl, i2⟩))))))))
  rw [if_neg i2]
  by_cases i3 : ed < s + a7 + a8 + a9 + a10 + a11 + a12 + a13 + a1 + a2 + a3
  · rw [if_pos i3]
    refine ⟨3, s + a7 + a8 + a9 + a10 + a11 + a12 + a13 + a1 + a2, rfl, by omega, by omega, fun dd => ?_, ?_⟩
    · have e : to_walk 3 dd [0, a1, a2, a3, a4, a5, a6, a7, a8, a9, a10, a11, a12, a13] month_order (s - 1) =
          some (s - 1 + a7 + a8 + a9 + a10 + a11 + a12 + a13 + a1 + a2 + (dd : Int)) := rfl
      rw [e]
      try simp only [Option.some.injEq]
      try omega
    · exact Or.inr (Or.inr (Or.inr (Or.inr (Or.inr (Or.inr (Or.inr (Or.inr (Or.inr (Or.inl ⟨rfl, rfl, i3⟩)))))))))
  rw [if_neg i3]
  by_cases i4 : ed < s + a7 + a8 + a9 + a10 + a11 + a12 + a13 + a1 + a2 + a3 + a4
  · rw [if_pos i4]
    refine ⟨4, s + a7 + a8 + a9 + a10 + a11 + a12 + a13 + a1 + a2 + a3, rfl, by omega, by omega, fun dd => ?_, ?_⟩
    · have e : to_walk 4 dd [0, a1, a2, a3, a4, a5, a6, a7, a8, a9, a10, a11, a12, a13] month_order (s - 1) =
          some (s - 1 + a7 + a8 + a9 + a10 + a11 + a12 + a13 + a1 + a2 + a3 + (dd : Int)) := rfl
      rw [e]
      try simp only [Option.some.injEq]
      try omega
    · exact Or.inr (Or.inr (Or.inr (Or.inr (Or.inr (Or.inr (Or.inr (Or.inr (Or.inr (Or.inr (Or.inl ⟨rfl, rfl, i4⟩))))))))))
  rw [if_neg i4]
  by_cases i5 : ed < s + a7 + a8 + a9 + a10 + a11 + a12 + a13 + a1 + a2 + a3 + a4 + a5
  · rw [if_pos i5]
    refine ⟨5, s + a7 + a8 + a9 + a10 + a11 + a12 + a13 + a1 + a2 + a3 + a4, rfl, by omega, by omega, fun dd => ?_, ?_⟩
    · have e : to_walk 5 dd [0, a1, a2, a3, a4, a5, a6, a7, a8, a9, a10, a11, a12, a13] month_order (s - 1) =
          some (s - 1 + a7 + a8 + a9 + a10 + a11 + a12 + a13 + a1 + a2 + a3 + a4 + (dd : Int)) := rfl
      rw [e]
      try simp only [Option.some.injEq]
      try omega
    · exact Or.inr (Or.inr (Or.inr (Or.inr (Or.inr (Or.inr (Or.inr (Or.inr (Or.inr (Or.inr (Or.inr (Or.inl ⟨rfl, rfl, i5⟩)))))))))))
  rw [if_neg i5]
  by_cases i6 : ed < s + a7 + a8 + a9 + a10 + a11 + a12 + a13 + a1 + a2 + a3 + a4 + a5 + a6
  · rw [if_pos i6]
    refine ⟨6, s + a7 + a8 + a9 + a10 + a11 + a12 + a13 + a1 + a2 + a3 + a4 + a5, rfl, by omega, by omega, fun dd => ?_, ?_⟩
    · have e : to_walk 6 dd [0, a1, a2, a3, a4, a5, a6, a7, a8, a9, a10, a11, a12, a13] month_order (s - 1) =
          some (s - 1 + a7 + a8 + a9 + a10 + a11 + a12 + a13 + a1 + a2 + a3 + a4 + a5 + (dd : Int)) := rfl
      rw [e]
      try simp only [Option.some.injEq]
      try omega
    · exact Or.inr (Or.inr (Or.inr (Or.inr (Or.inr (Or.inr (Or.inr (Or.inr (Or.inr (Or.inr (Or.inr (Or.inr (⟨rfl, rfl, i6⟩))))))))))))
  rw [if_neg i6]
  exfalso
  omega


/-- For years from 1 on, the month table is one of six concrete tables,
determined by the year length and the leap flag. -/
theorem year_months_cases (y : Int) (hy : 1 ≤ y) :
    (is_leap_year y = false ∧ year_length y = 353 ∧
      year_months y = [0, 30, 29, 30, 29, 30, 29, 30, 29, 29, 29, 30, 29, 0]) ∨
    (is_leap_year y = false ∧ year_length y = 354 ∧
      year_months y = [0, 30, 29, 30, 29, 30, 29, 30, 29, 30, 29, 30, 29, 0]) ∨
    (is_leap_year y = false ∧ year_length y = 355 ∧
      year_months y = [0, 30, 29, 30, 29, 30, 29, 30, 30, 30, 29, 30, 29, 0]) ∨
    (is_leap_year y = true ∧ year_length y = 383 ∧
      year_months y = [0, 30, 29, 30, 29, 30, 29, 30, 29, 29, 29, 30, 30, 29]) ∨
    (is_leap_year y = true ∧ year_length y = 384 ∧
      year_months y = [0, 30, 29, 30, 29, 30, 29, 30, 29, 30, 29, 30, 30, 29]) ∨
    (is_leap_year y = true ∧ year_length y = 385 ∧
      year_months y = [0, 30, 29, 30, 29, 30, 29, 30, 30, 30, 29, 30, 30, 29]) := by
  have h := year_length_cases y hy
  cases hb : is_leap_year y with
  | false =>
      rcases h.2 hb with hL | hL | hL
      · refine Or.inl ⟨rfl, hL, ?_⟩
        unfold year_months
        dsimp only
        rw [hb, hL]
        decide
      · refine Or.inr (Or.inl ⟨rfl, hL, ?_⟩)
        unfold year_months
        dsimp only
        rw [hb, hL]
        decide
      · refine Or.inr (Or.inr (Or.inl ⟨rfl, hL, ?_⟩))
        unfold year_months
        dsimp only
        rw [hb, hL]
        decide
  | true =>
      rcases h.1 hb with hL | hL | hL
      · refine Or.inr (Or.inr (Or.inr (Or.inl ⟨rfl, hL, ?_⟩)))
        unfold year_months
        dsimp only
        rw [hb, hL]
        decide
      · refine Or.inr (Or.inr (Or.inr (Or.inr (Or.inl ⟨rfl, hL, ?_⟩))))
        unfold year_months
        dsimp only
        rw [hb, hL]
        decide
      · refine Or.inr (Or.inr (Or.inr (Or.inr (Or.inr ⟨rfl, hL, ?_⟩))))
        unfold year_months
        dsimp only
        rw [hb, hL]
        decide

/-- For years from 1 on, `date_is_valid` accepts exactly the triples whose day
fits the month length of `year_months`. -/
theorem date_is_valid_iff_table (y : Int) (hy : 1 ≤ y) (m d : Nat) :
    date_is_valid y m d = true ↔
      (1 ≤ m ∧ m ≤ 13 ∧ 1 ≤ d ∧ (d : Int) ≤ (year_months y).getD m 0) := by
  by_cases hm13 : 1 ≤ m ∧ m ≤ 13
  case neg =>
    constructor
    · intro h
      exfalso
      unfold date_is_valid at h
      rw [if_pos (by omega)] at h
      exact absurd h (by decide)
    · intro h
      exact absurd ⟨h.1, h.2.1⟩ hm13
  case pos =>
    obtain ⟨hm1, hm2⟩ := hm13
    interval_cases m
    · rw [show date_is_valid y 1 d =
          (if 1 < 1 ∨ 13 < 1 ∨ d < 1 ∨ 30 < d then false
           else if d = 30 then true else true) from rfl]
      rcases year_months_cases y hy with ⟨hb, hL, hm⟩ | ⟨hb, hL, hm⟩ | ⟨hb, hL, hm⟩ | ⟨hb, hL, hm⟩ | ⟨hb, hL, hm⟩ | ⟨hb, hL, hm⟩ <;>
        simp only [hm, hL, hb, List.getD_cons_succ, List.getD_cons_zero,
          show ((353:Int).tmod 10) = 3 from by decide,
          show ((354:Int).tmod 10) = 4 from by decide,
          show ((355:Int).tmod 10) = 5 from by decide,
          show ((383:Int).tmod 10) = 3 from by decide,
          show ((384:Int).tmod 10) = 4 from by decide,
          show ((385:Int).tmod 10) = 5 from by decide] <;>
        split_ifs <;>
        (try simp only [Bool.false_eq_true, false_iff, true_iff, eq_self_iff_true,
          beq_iff_eq, decide_eq_true_eq, Bool.and_eq_true, Bool.and_false,
          Bool.and_true]) <;> omega
    · rw [show date_is_valid y 2 d =
          (if 2 < 1 ∨ 13 < 2 ∨ d < 1 ∨ 30 < d then false
           else if d = 30 then false else true) from rfl]
      rcases year_months_cases y hy with ⟨hb, hL, hm⟩ | ⟨hb, hL, hm⟩ | ⟨hb, hL, hm⟩ | ⟨hb, hL, hm⟩ | ⟨hb, hL, hm⟩ | ⟨hb, hL, hm⟩ <;>
        simp only [hm, hL, hb, List.getD_cons_succ, List.getD_cons_zero,
          show ((353:Int).tmod 10) = 3 from by decide,
          show ((354:Int).tmod 10) = 4 from by decide,
          show ((355:Int).tmod 10) = 5 from by decide,
          show ((383:Int).tmod 10) = 3 from by decide,
          show ((384:Int).tmod 10) = 4 from by decide,
          show ((385:Int).tmod 10) = 5 from by decide] <;>
        split_ifs <;>
        (try simp only [Bool.false_eq_true, false_iff, true_iff, eq_self_iff_true,
          beq_iff_eq, decide_eq_true_eq, Bool.and_eq_true, Bool.and_false,
          Bool.and_true]) <;> omega
    · rw [show date_is_valid y 3 d =
          (if 3 < 1 ∨ 13 < 3 ∨ d < 1 ∨ 30 < d then false
           else if d = 30 then true else true) from rfl]
      rcases year_months_cases y hy with ⟨hb, hL, hm⟩ | ⟨hb, hL, hm⟩ | ⟨hb, hL, hm⟩ | ⟨hb, hL, hm⟩ | ⟨hb, hL, hm⟩ | ⟨hb, hL, hm⟩ <;>
        simp only [hm, hL, hb, List.getD_cons_succ, List.getD_cons_zero,
          show ((353:Int).tmod 10) = 3 from by decide,
          show ((354:Int).tmod 10) = 4 from by decide,
          show ((355:Int).tmod 10) = 5 from by decide,
          show ((383:Int).tmod 10) = 3 from by decide,
          show ((384:Int).tmod 10) = 4 from by decide,
          show ((385:Int).tmod 10) = 5 from by decide] <;>
        split_ifs <;>
        (try simp only [Bool.false_eq_true, false_iff, true_iff, eq_self_iff_true,
          beq_iff_eq, decide_eq_true_eq, Bool.and_eq_true, Bool.and_false,
          Bool.and_true]) <;> omega
    · rw [show date_is_valid y 4 d =
          (if 4 < 1 ∨ 13 < 4 ∨ d < 1 ∨ 30 < d then false
           else if d = 30 then false else true) from rfl]
      rcases year_months_cases y hy with ⟨hb, hL, hm⟩ | ⟨hb, hL, hm⟩ | ⟨hb, hL, hm⟩ | ⟨hb, hL, hm⟩ | ⟨hb, hL, hm⟩ | ⟨hb, hL, hm⟩ <;>
        simp only [hm, hL, hb, List.getD_cons_succ, List.getD_cons_zero,
          show ((353:Int).tmod 10) = 3 from by decide,
          show ((354:Int).tmod 10) = 4 from by decide,
          show ((355:Int).tmod 10) = 5 from by decide,
          show ((383:Int).tmod 10) = 3 from by decide,
          show ((384:Int).tmod 10) = 4 from by decide,
          show ((385:Int).tmod 10) = 5 from by decide] <;>
        split_ifs <;>
        (try simp only [Bool.false_eq_true, false_iff, true_iff, eq_self_iff_true,
          beq_iff_eq, decide_eq_true_eq, Bool.and_eq_true, Bool.and_false,
          Bool.and_true]) <;> omega
    · rw [show date_is_valid y 5 d =
          (if 5 < 1 ∨ 13 < 5 ∨ d < 1 ∨ 30 < d then false
           else if d = 30 then true else true) from rfl]
      rcases year_months_cases y hy with ⟨hb, hL, hm⟩ | ⟨hb, hL, hm⟩ | ⟨hb, hL, hm⟩ | ⟨hb, hL, hm⟩ | ⟨hb, hL, hm⟩ | ⟨hb, hL, hm⟩ <;>
        simp only [hm, hL, hb, List.getD_cons_succ, List.getD_cons_zero,
          show ((353:Int).tmod 10) = 3 from by decide,
          show ((354:Int).tmod 10) = 4 from by decide,
          show ((355:Int).tmod 10) = 5 from by decide,
          show ((383:Int).tmod 10) = 3 from by decide,
          show ((384:Int).tmod 10) = 4 from by decide,
          show ((385:Int).tmod 10) = 5 from by decide] <;>
        split_ifs <;>
        (try simp only [Bool.false_eq_true, false_iff, true_iff, eq_self_iff_true,
          beq_iff_eq, decide_eq_true_eq, Bool.and_eq_true, Bool.and_false,
          Bool.and_true]) <;> omega
    · rw [show date_is_valid y 6 d =
          (if 6 < 1 ∨ 13 < 6 ∨ d < 1 ∨ 30 < d then false
           else if d = 30 then false else true) from rfl]
      rcases year_months_cases y hy with ⟨hb, hL, hm⟩ | ⟨hb, hL, hm⟩ | ⟨hb, hL, hm⟩ | ⟨hb, hL, hm⟩ | ⟨hb, hL, hm⟩ | ⟨hb, hL, hm⟩ <;>
        simp only [hm, hL, hb, List.getD_cons_succ, List.getD_cons_zero,
          show ((353:Int).tmod 10) = 3 from by decide,
          show ((354:Int).tmod 10) = 4 from by decide,
          show ((355:Int).tmod 10) = 5 from by decide,
          show ((383:Int).tmod 10) = 3 from by decide,
          show ((384:Int).tmod 10) = 4 from by decide,
          show ((385:Int).tmod 10) = 5 from by decide] <;>
        split_ifs <;>
        (try simp only [Bool.false_eq_true, false_iff, true_iff, eq_self_iff_true,
          beq_iff_eq, decide_eq_true_eq, Bool.and_eq_true, Bool.and_false,
          Bool.and_true]) <;> omega
    · rw [show date_is_valid y 7 d =
          (if 7 < 1 ∨ 13 < 7 ∨ d < 1 ∨ 30 < d then false
           else if d = 30 then true else true) from rfl]
      rcases year_months_cases y hy with ⟨hb, hL, hm⟩ | ⟨hb, hL, hm⟩ | ⟨hb, hL, hm⟩ | ⟨hb, hL, hm⟩ | ⟨hb, hL, hm⟩ | ⟨hb, hL, hm⟩ <;>
        simp only [hm, hL, hb, List.getD_cons_succ, List.getD_cons_zero,
          show ((353:Int).tmod 10) = 3 from by decide,
          show ((354:Int).tmod 10) = 4 from by decide,
          show ((355:Int).tmod 10) = 5 from by decide,
          show ((383:Int).tmod 10) = 3 from by decide,
          show ((384:Int).tmod 10) = 4 from by decide,
          show ((385:Int).tmod 10) = 5 from by decide] <;>
        split_ifs <;>
        (try simp only [Bool.false_eq_true, false_iff, true_iff, eq_self_iff_true,
          beq_iff_eq, decide_eq_true_eq, Bool.and_eq_true, Bool.and_false,
          Bool.and_true]) <;> omega
    · rw [show date_is_valid y 8 d =
          (if 8 < 1 ∨ 13 < 8 ∨ d < 1 ∨ 30 < d then false
           else if d = 30 then ((year_length y).tmod 10 == 5) else true) from rfl]
      rcases year_months_cases y hy with ⟨hb, hL, hm⟩ | ⟨hb, hL, hm⟩ | ⟨hb, hL, hm⟩ | ⟨hb, hL, hm⟩ | ⟨hb, hL, hm⟩ | ⟨hb, hL, hm⟩ <;>
        simp only [hm, hL, hb, List.getD_cons_succ, List.getD_cons_zero,
          show ((353:Int).tmod 10) = 3 from by decide,
          show ((354:Int).tmod 10) = 4 from by decide,
          show ((355:Int).tmod 10) = 5 from by decide,
          show ((383:Int).tmod 10) = 3 from by decide,
          show ((384:Int).tmod 10) = 4 from by decide,
          show ((385:Int).tmod 10) = 5 from by decide] <;>
        split_ifs <;>
        (try simp only [Bool.false_eq_true, false_iff, true_iff, eq_self_iff_true,
          beq_iff_eq, decide_eq_true_eq, Bool.and_eq_true, Bool.and_false,
          Bool.and_true]) <;> omega
    · rw [show date_is_valid y 9 d =
          (if 9 < 1 ∨ 13 < 9 ∨ d < 1 ∨ 30 < d then false
           else if d = 30 then (decide (4 ≤ (year_length y).tmod 10)) else true) from rfl]
      rcases year_months_cases y hy with ⟨hb, hL, hm⟩ | ⟨hb, hL, hm⟩ | ⟨hb, hL, hm⟩ | ⟨hb, hL, hm⟩ | ⟨hb, hL, hm⟩ | ⟨hb, hL, hm⟩ <;>
        simp only [hm, hL, hb, List.getD_cons_succ, List.getD_cons_zero,
          show ((353:Int).tmod 10) = 3 from by decide,
          show ((354:Int).tmod 10) = 4 from by decide,
          show ((355:Int).tmod 10) = 5 from by decide,
          show ((383:Int).tmod 10) = 3 from by decide,
          show ((384:Int).tmod 10) = 4 from by decide,
          show ((385:Int).tmod 10) = 5 from by decide] <;>
        split_ifs <;>
        (try simp only [Bool.false_eq_true, false_iff, true_iff, eq_self_iff_true,
          beq_iff_eq, decide_eq_true_eq, Bool.and_eq_true, Bool.and_false,
          Bool.and_true]) <;> omega
    · rw [show date_is_valid y 10 d =
          (if 10 < 1 ∨ 13 < 10 ∨ d < 1 ∨ 30 < d then false
           else if d = 30 then false else true) from rfl]
      rcases year_months_cases y hy with ⟨hb, hL, hm⟩ | ⟨hb, hL, hm⟩ | ⟨hb, hL, hm⟩ | ⟨hb, hL, hm⟩ | ⟨hb, hL, hm⟩ | ⟨hb, hL, hm⟩ <;>
        simp only [hm, hL, hb, List.getD_cons_succ, List.getD_cons_zero,
          show ((353:Int).tmod 10) = 3 from by decide,
          show ((354:Int).tmod 10) = 4 from by decide,
          show ((355:Int).tmod 10) = 5 from by decide,
          show ((383:Int).tmod 10) = 3 from by decide,
          show ((384:Int).tmod 10) = 4 from by decide,
          show ((385:Int).tmod 10) = 5 from by decide] <;>
        split_ifs <;>
        (try simp only [Bool.false_eq_true, false_iff, true_iff, eq_self_iff_true,
          beq_iff_eq, decide_eq_true_eq, Bool.and_eq_true, Bool.and_false,
          Bool.and_true]) <;> omega
    · rw [show date_is_valid y 11 d =
          (if 11 < 1 ∨ 13 < 11 ∨ d < 1 ∨ 30 < d then false
           else if d = 30 then true else true) from rfl]
      rcases year_months_cases y hy with ⟨hb, hL, hm⟩ | ⟨hb, hL, hm⟩ | ⟨hb, hL, hm⟩ | ⟨hb, hL, hm⟩ | ⟨hb, hL, hm⟩ | ⟨hb, hL, hm⟩ <;>
        simp only [hm, hL, hb, List.getD_cons_succ, List.getD_cons_zero,
          show ((353:Int).tmod 10) = 3 from by decide,
          show ((354:Int).tmod 10) = 4 from by decide,
          show ((355:Int).tmod 10) = 5 from by decide,
          show ((383:Int).tmod 10) = 3 from by decide,
          show ((384:Int).tmod 10) = 4 from by decide,
          show ((385:Int).tmod 10) = 5 from by decide] <;>
        split_ifs <;>
        (try simp only [Bool.false_eq_true, false_iff, true_iff, eq_self_iff_true,
          beq_iff_eq, decide_eq_true_eq, Bool.and_eq_true, Bool.and_false,
          Bool.and_true]) <;> omega
    · rw [show date_is_valid y 12 d =
          (if 12 < 1 ∨ 13 < 12 ∨ d < 1 ∨ 30 < d then false
           else if d = 30 then is_leap_year y else true) from rfl]
      rcases year_months_cases y hy with ⟨hb, hL, hm⟩ | ⟨hb, hL, hm⟩ | ⟨hb, hL, hm⟩ | ⟨hb, hL, hm⟩ | ⟨hb, hL, hm⟩ | ⟨hb, hL, hm⟩ <;>
        simp only [hm, hL, hb, List.getD_cons_succ, List.getD_cons_zero,
          show ((353:Int).tmod 10) = 3 from by decide,
          show ((354:Int).tmod 10) = 4 from by decide,
          show ((355:Int).tmod 10) = 5 from by decide,
          show ((383:Int).tmod 10) = 3 from by decide,
          show ((384:Int).tmod 10) = 4 from by decide,
          show ((385:Int).tmod 10) = 5 from by decide] <;>
        split_ifs <;>
        (try simp only [Bool.false_eq_true, false_iff, true_iff, eq_self_iff_true,
          beq_iff_eq, decide_eq_true_eq, Bool.and_eq_true, Bool.and_false,
          Bool.and_true]) <;> omega
    · rw [show date_is_valid y 13 d =
          (if 13 < 1 ∨ 13 < 13 ∨ d < 1 ∨ 30 < d then false else (decide (d ≤ 29) && is_leap_year y)) from rfl]
      rcases year_months_cases y hy with ⟨hb, hL, hm⟩ | ⟨hb, hL, hm⟩ | ⟨hb, hL, hm⟩ | ⟨hb, hL, hm⟩ | ⟨hb, hL, hm⟩ | ⟨hb, hL, hm⟩ <;>
        simp only [hm, hL, hb, List.getD_cons_succ, List.getD_cons_zero,
          show ((353:Int).tmod 10) = 3 from by decide,
          show ((354:Int).tmod 10) = 4 from by decide,
          show ((355:Int).tmod 10) = 5 from by decide,
          show ((383:Int).tmod 10) = 3 from by decide,
          show ((384:Int).tmod 10) = 4 from by decide,
          show ((385:Int).tmod 10) = 5 from by decide] <;>
        split_ifs <;>
        (try simp only [Bool.false_eq_true, false_iff, true_iff, eq_self_iff_true,
          beq_iff_eq, decide_eq_true_eq, Bool.and_eq_true, Bool.and_false,
          Bool.and_true]) <;> omega

/-- The backward walk finds any month that occurs in the walk order. -/
theorem to_walk_mem (target day : Nat) (dim : List Int) :
    ∀ (l : List Nat) (e : Int), target ∈ l →
      ∃ v, to_walk target day dim l e = some v := by
  intro l
  induction l with
  | nil => intro e h; cases h
  | cons a rest ih =>
      intro e h
      rw [to_walk]
      by_cases hat : a = target
      · rw [if_pos hat]
        exact ⟨_, rfl⟩
      · rw [if_neg hat]
        rcases List.mem_cons.mp h with h1 | h1
        · exact absurd h1.symm hat
        · exact ih _ h1

/-- Validity bounds the month and day fields. -/
theorem date_is_valid_month_bounds (y : Int) (m d : Nat)
    (h : date_is_valid y m d = true) : 1 ≤ m ∧ m ≤ 13 ∧ 1 ≤ d ∧ d ≤ 30 := by
  unfold date_is_valid at h
  split_ifs at h <;> first | exact absurd h (by decide) | omega

/-- `to_jd` never reaches its `unreachable!()` branch on months 1..13. -/
theorem to_jd_total (y : Int) (m d : Nat) (h1 : 1 ≤ m) (h2 : m ≤ 13) :
    JDate.to_jd ⟨y, m, d⟩ ≠ none := by
  unfold JDate.to_jd
  dsimp only
  have hmem : m ∈ month_order := by
    unfold month_order
    interval_cases m <;> decide
  obtain ⟨v, hv⟩ := to_walk_mem m d (year_months y) month_order (year_start y - 1) hmem
  rw [hv]
  simp

/-- Full specification of `from_jd` for post-epoch day numbers: it returns a
valid date in the located year, and `to_jd` maps that date back to the input. -/
theorem from_jd_spec (jd : Int) (h : 347998 ≤ jd) :
    ∃ m d : Nat, JDate.from_jd jd = some ⟨loc_year (jd - 347997), m, d⟩ ∧
      date_is_valid (loc_year (jd - 347997)) m d = true ∧
      JDate.to_jd ⟨loc_year (jd - 347997), m, d⟩ = some jd := by
  have hbr := loc_year_bracket (jd - 347997)
  have hy1 : 1 ≤ loc_year (jd - 347997) := loc_year_pos _ (by omega)
  have hlen : year_length (loc_year (jd - 347997)) =
      year_start (loc_year (jd - 347997) + 1) - year_start (loc_year (jd - 347997)) := rfl
  unfold JDate.from_jd JDate.to_jd
  try dsimp only
  rcases year_months_cases (loc_year (jd - 347997)) hy1 with
    ⟨hb, hL, hm⟩ | ⟨hb, hL, hm⟩ | ⟨hb, hL, hm⟩ | ⟨hb, hL, hm⟩ | ⟨hb, hL, hm⟩ | ⟨hb, hL, hm⟩ <;>
    rw [hm] <;>
    [obtain ⟨m, days, hfw, hsle, hdle, hto, hcs⟩ :=
      walk_master (jd - 347997) (year_start (loc_year (jd - 347997)))
        30 29 30 29 30 29 30 29 29 29 30 29 0
        (by norm_num) hbr.1 (by omega);
     obtain ⟨m, days, hfw, hsle, hdle, hto, hcs⟩ :=
      walk_master (jd - 347997) (year_start (loc_year (jd - 347997)))
        30 29 30 29 30 29 30 29 30 29 30 29 0
        (by norm_num) hbr.1 (by omega);
     obtain ⟨m, days, hfw, hsle, hdle, hto, hcs⟩ :=
      walk_master (jd - 347997) (year_start (loc_year (jd - 347997)))
        30 29 30 29 30 29 30 30 30 29 30 29 0
        (by norm_num) hbr.1 (by omega);
     obtain ⟨m, days, hfw, hsle, hdle, hto, hcs⟩ :=
      walk_master (jd - 347997) (year_start (loc_year (jd - 347997)))
        30 29 30 29 30 29 30 29 29 29 30 30 29
        (by norm_num) hbr.1 (by omega);
     obtain ⟨m, days, hfw, hsle, hdle, hto, hcs⟩ :=
      walk_master (jd - 347997) (year_start (loc_year (jd - 347997)))
        30 29 30 29 30 29 30 29 30 29 30 30 29
        (by norm_num) hbr.1 (by omega);
     obtain ⟨m, days, hfw, hsle, hdle, hto, hcs⟩ :=
      walk_master (jd - 347997) (year_start (loc_year (jd - 347997)))
        30 29 30 29 30 29 30 30 30 29 30 30 29
        (by norm_num) hbr.1 (by omega)] <;>
    rw [hfw] <;>
    refine ⟨m, (jd - 347997 - days + 1).toNat, rfl, ?_, ?_⟩
  all_goals try
    (rw [hto ((jd - 347997 - days + 1).toNat)]
     simp only [Option.map_some', Option.some.injEq]
     omega)
  all_goals
    refine (date_is_valid_iff_table _ hy1 _ _).mpr ?_
  all_goals
    rcases hcs with ⟨rfl, h1, h2⟩ | ⟨rfl, h1, h2⟩ | ⟨rfl, h1, h2⟩ | ⟨rfl, h1, h2⟩ |
      ⟨rfl, h1, h2⟩ | ⟨rfl, h1, h2⟩ | ⟨rfl, h1, h2⟩ | ⟨rfl, h1, h2⟩ | ⟨rfl, h1, h2⟩ |
      ⟨rfl, h1, h2⟩ | ⟨rfl, h1, h2⟩ | ⟨rfl, h1, h2⟩ | ⟨rfl, h1, h2⟩ <;>
    simp only [hm, List.getD_cons_succ, List.getD_cons_zero] <;> omega

/-! ## The claims -/

set_option maxRecDepth 10000

/-- C1: Round-trip through the Hebrew converter is the identity on the shared
day axis: for every Julian day number `d ≥ 347998` (every day on or after
1 Tishrei 1), `JDate::from_jd(d).to_jd() == d`. -/
theorem claim_round_trip (jd : Int) (h : 347998 ≤ jd) :
    (JDate.from_jd jd).bind JDate.to_jd = some jd := by
  obtain ⟨m, d, h1, h2, h3⟩ := from_jd_spec jd h
  rw [h1]
  exact h3

theorem claim_round_trip_witness :
    (JDate.from_jd 2460677).bind JDate.to_jd = some 2460677 :=
  claim_round_trip 2460677 (by decide)

/-- C2 (counterexample): the spec's scenarios name 0001-01-01 as Tishrei 18 and
2024-12-31 as Cheshvan 30, but the code produces month 10 (Tevet) and month 9
(Kislev) for those dates. -/
theorem claim_scenarios_cex :
    (JDate.from_jd (greg_to_jd 1 1 1)).map month_name ≠ some "Tishrei" ∧
    (JDate.from_jd (greg_to_jd 2024 12 31)).map month_name ≠ some "Cheshvan" := by
  decide

/-- C2 (amended): the eight literal scenarios with the two month names
corrected: 0001-01-01 is 3761-Tevet-18 and 2024-12-31 is 5785-Kislev-30; the
other six scenarios hold as stated. -/
theorem claim_scenarios_amended :
    JDate.from_jd (greg_to_jd 1 1 1) = some ⟨3761, 10, 18⟩ ∧
    month_name ⟨3761, 10, 18⟩ = "Tevet" ∧
    JDate.from_jd (greg_to_jd (-3760) 9 7) = some ⟨1, 7, 1⟩ ∧
    month_name ⟨1, 7, 1⟩ = "Tishrei" ∧
    JDate.from_jd (greg_to_jd 2024 12 31) = some ⟨5785, 9, 30⟩ ∧
    month_name ⟨5785, 9, 30⟩ = "Kislev" ∧
    JDate.from_jd (greg_to_jd 2025 1 1) = some ⟨5785, 10, 1⟩ ∧
    month_name ⟨5785, 10, 1⟩ = "Tevet" ∧
    JDate.from_jd (greg_to_jd 2024 2 10) = some ⟨5784, 12, 1⟩ ∧
    month_name ⟨5784, 12, 1⟩ = "Adar1" ∧
    JDate.from_jd (greg_to_jd 2024 3 11) = some ⟨5784, 13, 1⟩ ∧
    month_name ⟨5784, 13, 1⟩ = "Adar2" ∧
    JDate.from_jd (greg_to_jd 2024 10 2) = some ⟨5784, 6, 29⟩ ∧
    month_name ⟨5784, 6, 29⟩ = "Elul" ∧
    JDate.from_jd (greg_to_jd 2024 10 3) = some ⟨5785, 7, 1⟩ ∧
    month_name ⟨5785, 7, 1⟩ = "Tishrei" := by
  decide

/-- C3: for every Hebrew year `y ≥ 1`, `year_length(y)` is one of
{353,354,355,383,384,385}, and lies in {383,384,385} iff `is_leap_year(y)`. -/
theorem claim_year_length_set (y : Int) (h : 1 ≤ y) :
    (year_length y = 353 ∨ year_length y = 354 ∨ year_length y = 355 ∨
      year_length y = 383 ∨ year_length y = 384 ∨ year_length y = 385) ∧
    ((year_length y = 383 ∨ year_length y = 384 ∨ year_length y = 385) ↔
      is_leap_year y = true) := by
  have hc := year_length_cases y h
  cases hb : is_leap_year y
  · rcases hc.2 hb with hL | hL | hL <;> rw [hL] <;> norm_num
  · rcases hc.1 hb with hL | hL | hL <;> rw [hL] <;> norm_num

theorem claim_year_length_set_witness :
    (year_length 5785 = 353 ∨ year_length 5785 = 354 ∨ year_length 5785 = 355 ∨
      year_length 5785 = 383 ∨ year_length 5785 = 384 ∨ year_length 5785 = 385) ∧
    ((year_length 5785 = 383 ∨ year_length 5785 = 384 ∨ year_length 5785 = 385) ↔
      is_leap_year 5785 = true) :=
  claim_year_length_set 5785 (by decide)

/-- C4 (counterexample): the claim says `is_leap_year` is characterised by the
Euclidean remainder mod 19 for every integer, but year −16 has Euclidean
remainder 3 (a leap position) while the function returns `false`, because Rust's
`%` truncates toward zero. -/
theorem claim_leap_euclid_cex :
    is_leap_year (-16) = false ∧ ((-16 : Int) % 19 = 0 ∨ (-16 : Int) % 19 = 3 ∨
      (-16 : Int) % 19 = 6 ∨ (-16 : Int) % 19 = 8 ∨ (-16 : Int) % 19 = 11 ∨
      (-16 : Int) % 19 = 14 ∨ (-16 : Int) % 19 = 17) := by
  decide

/-- C4 (amended): `is_leap_year` is total over all integers; for `y ≥ 0` it
returns true exactly when the Euclidean remainder `y mod 19` lies in
{0,3,6,8,11,14,17}, but for negative years it returns true only for exact
multiples of 19 (Rust's truncating `%`). -/
theorem claim_leap_euclid_amended (y : Int) :
    is_leap_year y = true ↔
      ((0 ≤ y ∧ (y % 19 = 0 ∨ y % 19 = 3 ∨ y % 19 = 6 ∨ y % 19 = 8 ∨
          y % 19 = 11 ∨ y % 19 = 14 ∨ y % 19 = 17)) ∨
        (y < 0 ∧ y % 19 = 0)) := by
  obtain ⟨e1, e2, e3, e4, e5⟩ := tmod_facts y 19 (by norm_num)
  simp only [is_leap_year, Bool.or_eq_true, beq_iff_eq]
  omega

/-- C5: `year_start` is strictly monotonic: for every integer year `y`,
`year_start(y) < year_start(y+1)`. -/
theorem claim_year_start_monotone (y : Int) : year_start y < year_start (y + 1) :=
  year_start_lt_succ y

/-- C6 (counterexample): for the pre-epoch year −70 (whose aberrant length 382
has remainder 2 mod 10), `year_months` lists 30 days for Kislev, yet the
constructor rejects (−70, 9, 30) — so `JDate::new` does not accept exactly the
triples realizable per `year_months`. -/
theorem claim_new_valid_cex :
    JDate.new (-70) 9 30 = none ∧ (year_months (-70)).getD 9 0 = 30 := by
  decide

/-- C6 (amended): for every year `y ≥ 1`, `JDate::new(y, m, d)` returns a value
exactly when month is in 1..13 (month 13 only in leap years and then day ≤ 29),
day is in 1..30, and day 30 only in months whose length is 30 per
`year_months(y)`.  (Pre-epoch years with aberrant lengths ≡ 0,1,2 mod 10 can
violate the Kislev clause.) -/
theorem claim_new_valid_amended (y : Int) (m d : Nat) (hy : 1 ≤ y) :
    (JDate.new y m d).isSome = true ↔
      (1 ≤ m ∧ m ≤ 13 ∧ 1 ≤ d ∧ d ≤ 30 ∧
        (m = 13 → is_leap_year y = true ∧ d ≤ 29) ∧
        (d = 30 → (year_months y).getD m 0 = 30)) := by
  have hnew : (JDate.new y m d).isSome = true ↔ date_is_valid y m d = true := by
    unfold JDate.new
    split_ifs with hv
    · simp [hv]
    · simp only [Bool.not_eq_false] at hv
      simp [hv]
  rw [hnew, date_is_valid_iff_table y hy m d]
  rcases year_months_cases y hy with ⟨hb, hL, hm⟩ | ⟨hb, hL, hm⟩ | ⟨hb, hL, hm⟩ |
    ⟨hb, hL, hm⟩ | ⟨hb, hL, hm⟩ | ⟨hb, hL, hm⟩ <;>
    rw [hm, hb] <;>
    by_cases hm13 : 1 ≤ m ∧ m ≤ 13
  all_goals try (obtain ⟨hma, hmb⟩ := hm13; interval_cases m <;>
    (simp only [List.getD_cons_succ, List.getD_cons_zero]
     simp
     try omega))
  all_goals
    constructor <;> intro hh <;> exact absurd ⟨hh.1, hh.2.1⟩ hm13

theorem claim_new_valid_amended_witness :
    (JDate.new 5785 7 1).isSome = true ↔
      (1 ≤ 7 ∧ 7 ≤ 13 ∧ 1 ≤ 1 ∧ 1 ≤ 30 ∧
        ((7 : Nat) = 13 → is_leap_year 5785 = true ∧ 1 ≤ 29) ∧
        ((1 : Nat) = 30 → (year_months 5785).getD 7 0 = 30)) :=
  claim_new_valid_amended 5785 7 1 (by decide)

/-- C7: Rosh Hashana never falls on Sunday, Wednesday, or Friday: for every
Hebrew year `y ≥ 1`, `year_start(y) mod 7` is not 0, 3, or 5 — including when
the Gatarad or Betutekapot rule replaces the result of rules 1-2. -/
theorem claim_lo_adu (y : Int) (h : 1 ≤ y) :
    year_start y % 7 ≠ 0 ∧ year_start y % 7 ≠ 3 ∧ year_start y % 7 ≠ 5 := by
  have hm1 := molad_lb y h
  obtain ⟨t1a, t1b, t1c, t1d, -⟩ := tmod_facts (molad y / (1080 * 24)) 7 (by norm_num)
  obtain ⟨t2a, t2b, t2c, t2d, -⟩ := tmod_facts (molad y / (1080 * 24) + 1) 7 (by norm_num)
  have t1e := t1d (by omega)
  have t2e := t2d (by omega)
  unfold year_start
  dsimp only
  cases hb1 : is_leap_year y <;> cases hb0 : is_leap_year (y - 1) <;>
    simp only [Bool.false_eq_true, Bool.true_eq_false, eq_self_iff_true,
      true_and, false_and, and_true, and_false, if_true, if_false] <;>
    split_ifs <;> omega

theorem claim_lo_adu_witness :
    year_start 5785 % 7 ≠ 0 ∧ year_start 5785 % 7 ≠ 3 ∧ year_start 5785 % 7 ≠ 5 :=
  claim_lo_adu 5785 (by decide)

/-- C8 (counterexample): the `unreachable!()` branch of `from_jd` is reachable:
for the pre-epoch day number jd = 347230 (inside year −2, whose molad-based span
is 384 days but whose month table sums to 354), the month walk wraps around. -/
theorem claim_unreachable_cex : JDate.from_jd 347230 = none := by decide

/-- C8 (amended): for every day number at or after the epoch (jd ≥ 347998) the
month walk of `from_jd` finds the containing month before wrapping, and for
every `JDate` accepted by the validating constructor the walk of `to_jd`
reaches the target month before wrapping. -/
theorem claim_unreachable_amended :
    (∀ jd : Int, 347998 ≤ jd → JDate.from_jd jd ≠ none) ∧
    (∀ (y : Int) (m d : Nat) (j : JDate), JDate.new y m d = some j →
      JDate.to_jd j ≠ none) := by
  constructor
  · intro jd h
    obtain ⟨m, d, h1, -, -⟩ := from_jd_spec jd h
    rw [h1]
    exact Option.some_ne_none _
  · intro y m d j hj
    unfold JDate.new at hj
    split_ifs at hj with hv
    all_goals first
      | exact Option.noConfusion hj
      | (simp only [Bool.not_eq_false] at hv
         obtain ⟨h1, h2, h3, h4⟩ := date_is_valid_month_bounds y m d hv
         injection hj with hj'
         rw [← hj']
         exact to_jd_total y m d h1 h2)

theorem claim_unreachable_amended_witness :
    JDate.from_jd 2460677 ≠ none ∧ JDate.to_jd ⟨5785, 7, 1⟩ ≠ none :=
  ⟨claim_unreachable_amended.1 2460677 (by decide),
   claim_unreachable_amended.2 5785 7 1 ⟨5785, 7, 1⟩ (by decide)⟩

/-- C9: `gdate` panics (via `month.try_into().unwrap()`) for months outside
1..12 instead of returning `None`; for in-range months with invalid days it
does return the absence of a value. -/
theorem claim_gdate_panic :
    gdate 2024 13 1 = Except.error () ∧ gdate 2024 2 30 = Except.ok none ∧
    gdate 2024 2 29 = Except.ok (some ⟨2024, 2, 29⟩) :=
  ⟨rfl, rfl, rfl⟩

/-- C10: the unvalidated conversion path always produces valid dates: for every
Julian day number `d ≥ 347998`, the fields of `from_jd(d)` satisfy
`date_is_valid`, so the output could also have been built via `JDate::new`. -/
theorem claim_from_jd_valid (jd : Int) (h : 347998 ≤ jd) :
    ∃ (y : Int) (m d : Nat), JDate.from_jd jd = some ⟨y, m, d⟩ ∧
      date_is_valid y m d = true := by
  obtain ⟨m, d, h1, h2, -⟩ := from_jd_spec jd h
  exact ⟨_, m, d, h1, h2⟩

theorem claim_from_jd_valid_witness :
    ∃ (y : Int) (m d : Nat), JDate.from_jd 2460677 = some ⟨y, m, d⟩ ∧
      date_is_valid y m d = true :=
  claim_from_jd_valid 2460677 (by decide)
